import Mathlib

/-!
# Korangar graphics engine — shallow embedding

A shallow embedding of `korangar/src/graphics/engine.rs` (the frame
orchestrator `GraphicsEngine`) sufficient to settle the specification
claims about frame submission, pass recording order, surface lifecycle
and configuration setters.

GPU-effectful calls are modelled as events appended to an explicit trace;
Rust panics (`assert!`, `unwrap`, `expect`) are modelled by returning
`none`.  Types whose sources are outside the provided tree
(`Surface`, `GlobalContext`, `ShadowDetail`, `FramePacer`, …) are
modelled from the spec, as noted on each definition.
-/

namespace Korangar

/-- Modelled from the spec: a negotiated surface pixel format
(`wgpu::TextureFormat`), abstracted to an opaque code. -/
structure TextureFormat where
  code : Nat
deriving DecidableEq

/-- Modelled from the spec: the shadow-detail level configuration option
("affects shadow texture size"), abstracted to an opaque level. -/
structure ShadowDetail where
  level : Nat
deriving DecidableEq

/-- Modelled from the spec: texture-sampler type
(nearest/linear/anisotropic variants). -/
inductive TextureSamplerType
  | nearest
  | linear
  | anisotropic (level : Nat)
deriving DecidableEq

/-- The `LimitFramerate` option as consumed by `GraphicsEngine::set_limit_framerate`:
unlimited, or a fixed rate. -/
inductive LimitFramerate
  | unlimited
  | limit (rate : Nat)
deriving DecidableEq

/-- The render-settings flags of `RenderInstruction` that the engine file
reads (`show_wireframe` in the geometry pass, the three lighting flags in
the screen pass; all only under the debug feature). -/
structure RenderSettings where
  show_ambient_light : Bool
  show_directional_light : Bool
  show_point_lights : Bool
  show_wireframe : Bool
deriving DecidableEq

/-- The per-frame `RenderInstruction` snapshot, with draw-item payloads
abstracted to opaque tokens (`Nat` / `List Nat`): the engine only passes
them through to drawers.  Field names follow
`crate::graphics::instruction::RenderInstruction` as used by `engine.rs`.
The picker position components are the already-cast `u32` values of
`instruction.picker_position.left/top`. -/
structure RenderInstruction where
  point_light_shadow_caster : List Nat
  clear_interface : Bool
  show_interface : Bool
  picker_position_left : Nat
  picker_position_top : Nat
  entities : List Nat
  interface : List Nat
  directional_model_batches : List Nat
  directional_shadow_models : List Nat
  directional_shadow_entities : List Nat
  point_shadow_models : List Nat
  point_shadow_entities : List Nat
  model_batches : List Nat
  models : List Nat
  indicator : Option Nat
  map_water_vertex_buffer : Option Nat
  map_picker_tile_vertex_buffer : Nat
  effects : List Nat
  bottom_layer_rectangles : List Nat
  middle_layer_rectangles : List Nat
  top_layer_rectangles : List Nat
  render_settings : RenderSettings
deriving DecidableEq

/-- The fixed maximum number of point lights with shadows.  Modelled from
the spec: the constant `crate::NUMBER_OF_POINT_LIGHTS_WITH_SHADOWS` is
declared outside the provided tree; the spec only requires it to be a
fixed bound, so its concrete value is irrelevant to every claim. -/
def NUMBER_OF_POINT_LIGHTS_WITH_SHADOWS : Nat := 3

/-! ## Screen pass recording (`draw_frame`, screen pass section) -/

/-- The rectangle layer passed to `ScreenRectangleDrawer`. -/
inductive Layer
  | bottom
  | middle
  | top
deriving DecidableEq

/-- One draw command recorded into the screen pass, in the order of
`draw_frame`.  Payloads carried where the source passes instruction
content. -/
inductive ScreenCmd
  | ambientLight
  | directionalLight
  | pointLight
  | waterLight
  | aabb
  | circle
  | rectangles (layer : Layer) (instructions : List Nat)
  | effects (payload : List Nat)
  | buffer
  | overlay
deriving DecidableEq

/-- The screen-pass draw commands recorded by `GraphicsEngine::draw_frame`
(lines 844-902).  `debug` selects the `feature = "debug"` build: the
`debug_condition(render_settings.show_*)` attributes gate the three
lighting drawers only in that build, and the aabb/circle/buffer debug
drawers exist only there. -/
def screenPassDraws (debug : Bool) (instruction : RenderInstruction) : List ScreenCmd :=
  let s := instruction.render_settings
  (if !debug || s.show_ambient_light then [ScreenCmd.ambientLight] else [])
    ++ (if !debug || s.show_directional_light then [ScreenCmd.directionalLight] else [])
    ++ (if !debug || s.show_point_lights then [ScreenCmd.pointLight] else [])
    ++ [ScreenCmd.waterLight]
    ++ (if debug then [ScreenCmd.aabb, ScreenCmd.circle] else [])
    ++ [ScreenCmd.rectangles Layer.bottom instruction.bottom_layer_rectangles]
    ++ [ScreenCmd.effects instruction.effects]
    ++ (if debug then [ScreenCmd.buffer] else [])
    ++ [ScreenCmd.rectangles Layer.middle instruction.middle_layer_rectangles]
    ++ (if debug then [ScreenCmd.aabb] else [])
    ++ (if instruction.show_interface then [ScreenCmd.overlay] else [])
    ++ [ScreenCmd.rectangles Layer.top instruction.top_layer_rectangles]

/-- Whether a screen command is a rectangle-layer draw or the UI overlay
(the commands whose relative order the compositing contract fixes). -/
def ScreenCmd.isLayerOrOverlay : ScreenCmd → Bool
  | ScreenCmd.rectangles _ _ => true
  | ScreenCmd.overlay => true
  | _ => false

/-- Replace the `show_point_lights` render-settings flag of an
instruction. -/
def setShowPointLights (instruction : RenderInstruction) (b : Bool) : RenderInstruction :=
  { instruction with render_settings := { instruction.render_settings with show_point_lights := b } }

/-! ## Picker pass recording (`draw_frame`, picker pass section) -/

/-- One command recorded into the picker encoder: the draws inside the
render pass, then the texture-to-buffer copy issued after the pass is
dropped. -/
inductive PickerCmd
  | drawTiles (vertex_buffer : Nat)
  | drawEntities (payload : List Nat)
  | drawMarkers
  | copyTextureToBuffer (originX originY originZ : Nat) (extentW extentH extentD : Nat)
deriving DecidableEq

/-- Whether a picker command is a draw (as opposed to the copy). -/
def PickerCmd.isDraw : PickerCmd → Bool
  | PickerCmd.copyTextureToBuffer _ _ _ _ _ _ => false
  | _ => true

/-- The picker-pass commands recorded by `GraphicsEngine::draw_frame`
(lines 694-741): tile draw, entity draw, debug markers, then the 1x1x1
texture-to-buffer copy whose origin clamps the cursor position with
`(size - 1).min(position)` per component.  `texW`/`texH` are the unpadded
size of the picker buffer texture. -/
def pickerPassCommands (debug : Bool) (texW texH : Nat) (instruction : RenderInstruction) :
    List PickerCmd :=
  [PickerCmd.drawTiles instruction.map_picker_tile_vertex_buffer,
    PickerCmd.drawEntities instruction.entities]
    ++ (if debug then [PickerCmd.drawMarkers] else [])
    ++ [PickerCmd.copyTextureToBuffer
          (min (texW - 1) instruction.picker_position_left)
          (min (texH - 1) instruction.picker_position_top) 0 1 1 1]

/-! ## Point-shadow pass recording (`draw_frame`, point shadow section) -/

/-- One draw inside a point-shadow sub-pass, with the payload the source
hands to the drawer. -/
inductive PointShadowDraw
  | models (instructions : List Nat)
  | entities (instructions : List Nat)
  | indicator (payload : Option Nat)
deriving DecidableEq

/-- One point-shadow sub-pass: the `PointShadowData` selecting a
(caster, cube face) pair, and the draws recorded into it. -/
structure PointShadowSubPass where
  shadow_caster_index : Nat
  face_index : Nat
  draws : List PointShadowDraw
deriving DecidableEq

/-- The sub-pass sequence recorded by the point-shadow section of
`GraphicsEngine::draw_frame` (lines 782-815): casters in the outer loop,
the 6 cube faces in the inner loop; each sub-pass draws models, entities,
then the indicator. -/
def pointShadowSubPasses (instruction : RenderInstruction) : List PointShadowSubPass :=
  (List.range instruction.point_light_shadow_caster.length).flatMap fun shadow_caster_index =>
    (List.range 6).map fun face_index =>
      { shadow_caster_index, face_index,
        draws := [PointShadowDraw.models instruction.point_shadow_models,
          PointShadowDraw.entities instruction.point_shadow_entities,
          PointShadowDraw.indicator instruction.indicator] }

/-! ## Remaining pass recordings and `draw_frame` -/

/-- One draw command recorded into the interface pass. -/
inductive InterfaceCmd
  | drawRectangles (payload : List Nat)
deriving DecidableEq

/-- One draw command recorded into the directional-shadow pass, in source
order: model batch draw, indicator, entities. -/
inductive DirectionalShadowCmd
  | models (batches instructions : List Nat) (show_wireframe : Bool)
  | indicator (payload : Option Nat)
  | entities (payload : List Nat)
deriving DecidableEq

/-- One draw command recorded into the geometry pass, in source order:
model batch draw, indicator, entities, optional water. -/
inductive GeometryCmd
  | models (batches instructions : List Nat) (show_wireframe : Bool)
  | indicator (payload : Option Nat)
  | entities (payload : List Nat)
  | water (vertex_buffer : Nat)
deriving DecidableEq

/-- One finished command buffer handed to `Queue::submit`, tagged by the
encoder whose commands it holds (so a buffer's content identifies the
pass that recorded it).  The prepare buffer's staging-upload content is
not modelled. -/
inductive CommandBuffer
  | prepareBuffer
  | pickerBuffer (cmds : List PickerCmd)
  | interfaceBuffer (clear : Bool) (cmds : List InterfaceCmd)
  | directionalShadowBuffer (cmds : List DirectionalShadowCmd)
  | pointShadowBuffer (cmds : List PointShadowSubPass)
  | geometryBuffer (cmds : List GeometryCmd)
  | screenBuffer (cmds : List ScreenCmd)
deriving DecidableEq

/-- Embeds `GraphicsEngine::draw_frame` (lines 668-912): record the six
pass command buffers and return them as a tuple in the source's return
order — picker first, interface second, then directional shadow, point
shadow, geometry, screen (lines 904-911).  `texW`/`texH` are the
unpadded picker-texture dimensions read from the global context. -/
def draw_frame (debug : Bool) (texW texH : Nat) (instruction : RenderInstruction) :
    CommandBuffer × CommandBuffer × CommandBuffer × CommandBuffer × CommandBuffer ×
      CommandBuffer :=
  (CommandBuffer.pickerBuffer (pickerPassCommands debug texW texH instruction),
    CommandBuffer.interfaceBuffer instruction.clear_interface
      [InterfaceCmd.drawRectangles instruction.interface],
    CommandBuffer.directionalShadowBuffer
      [DirectionalShadowCmd.models instruction.directional_model_batches
          instruction.directional_shadow_models false,
        DirectionalShadowCmd.indicator instruction.indicator,
        DirectionalShadowCmd.entities instruction.directional_shadow_entities],
    CommandBuffer.pointShadowBuffer (pointShadowSubPasses instruction),
    CommandBuffer.geometryBuffer
      ([GeometryCmd.models instruction.model_batches instruction.models
          (debug && instruction.render_settings.show_wireframe),
        GeometryCmd.indicator instruction.indicator,
        GeometryCmd.entities instruction.entities]
        ++ (match instruction.map_water_vertex_buffer with
            | some vertex_buffer => [GeometryCmd.water vertex_buffer]
            | none => [])),
    CommandBuffer.screenBuffer (screenPassDraws debug instruction))

/-! ## Engine state -/

/-- Modelled from the spec: the `GlobalContext` owning cross-pass GPU
resources — shadow maps sized by the shadow-detail setting,
screen-size-dependent targets (the picker buffer texture among them), and
the texture sampler.  Size-dependent sub-resources are mutated in place. -/
structure GlobalContext where
  surface_texture_format : TextureFormat
  screen_width : Nat
  screen_height : Nat
  shadow_detail : ShadowDetail
  texture_sampler : TextureSamplerType
deriving DecidableEq

/-- Modelled from the spec: `GlobalContext::new` builds the shared
resources for a negotiated format, screen size, shadow detail and sampler
type. -/
def GlobalContext.new (format : TextureFormat) (screen_width screen_height : Nat)
    (shadow_detail : ShadowDetail) (texture_sampler : TextureSamplerType) : GlobalContext :=
  { surface_texture_format := format, screen_width, screen_height, shadow_detail, texture_sampler }

/-- Modelled from the spec: `update_shadow_size_textures` resizes the
shadow textures in place for a new detail level, touching nothing else. -/
def GlobalContext.update_shadow_size_textures (g : GlobalContext)
    (shadow_detail : ShadowDetail) : GlobalContext :=
  { g with shadow_detail }

/-- Modelled from the spec: `update_screen_size_textures` resizes the
screen-size-dependent textures in place, touching nothing else. -/
def GlobalContext.update_screen_size_textures (g : GlobalContext)
    (screen_width screen_height : Nat) : GlobalContext :=
  { g with screen_width, screen_height }

/-- Modelled from the spec: `update_texture_sampler` replaces the texture
sampler in place, touching nothing else. -/
def GlobalContext.update_texture_sampler (g : GlobalContext)
    (texture_sampler : TextureSamplerType) : GlobalContext :=
  { g with texture_sampler }

/-- The `EngineContext` of `engine.rs`: the global context plus the six
pass contexts and the drawer family, the latter two abstracted to
identity tokens.  `generation` is model instrumentation distinguishing
distinct builds of the context (object identity). -/
structure EngineContext where
  generation : Nat
  global_context : GlobalContext
  pass_contexts_id : Nat
  drawers_id : Nat
deriving DecidableEq

/-- Modelled from the spec: the presentable `Surface`, with a validity
state that resize/device events clear and `reconfigure` restores. -/
structure Surface where
  format : TextureFormat
  width : Nat
  height : Nat
  valid : Bool
  triple_buffering : Bool
  vsync : Bool
deriving DecidableEq

/-- Modelled from the spec: `Surface::new` negotiates a format and
configures the surface for the window size. -/
def Surface.new (format : TextureFormat) (width height : Nat)
    (triple_buffering vsync : Bool) : Surface :=
  { format, width, height, valid := true, triple_buffering, vsync }

/-- Modelled from the spec: reconfiguring re-creates the surface against
the same device, restoring validity. -/
def Surface.reconfigure (s : Surface) : Surface :=
  { s with valid := true }

/-- Modelled from the spec: a resize propagates new pixel dimensions and
invalidates the surface until the next reconfigure. -/
def Surface.update_window_size (s : Surface) (width height : Nat) : Surface :=
  { s with width, height, valid := false }

/-- Modelled from the spec: the acquired presentable target returned by
`Surface::acquire`. -/
structure SurfaceTexture where
  format : TextureFormat
  width : Nat
  height : Nat
deriving DecidableEq

/-- The mutable state of `GraphicsEngine` relevant to the claims.
`staging_belt` is an identity token; `monitor_frequency` models the
frame pacer's configured frequency; `next_generation` is model
instrumentation feeding `EngineContext.generation`. -/
structure EngineState where
  staging_belt : Nat
  surface : Option Surface
  limit_framerate : Bool
  monitor_frequency : Nat
  previous_surface_texture_format : Option TextureFormat
  engine_context : Option EngineContext
  next_generation : Nat
deriving DecidableEq

/-- Embeds `GraphicsEngine::initialize`: device-independent state; no surface,
no engine context, framerate unlimited, pacer at 60 Hz. -/
def GraphicsEngine.initialize : EngineState :=
  { staging_belt := 0, surface := none, limit_framerate := false, monitor_frequency := 60,
    previous_surface_texture_format := none, engine_context := none, next_generation := 0 }

/-- Embeds `GraphicsEngine::set_limit_framerate` (lines 438-448). -/
def GraphicsEngine.set_limit_framerate (st : EngineState)
    (limit_framerate : LimitFramerate) : EngineState :=
  match limit_framerate with
  | LimitFramerate.unlimited => { st with limit_framerate := false }
  | LimitFramerate.limit rate => { st with limit_framerate := true, monitor_frequency := rate }

/-- Embeds `GraphicsEngine::set_vsync` (lines 432-436). -/
def GraphicsEngine.set_vsync (st : EngineState) (enabled : Bool) : EngineState :=
  { st with surface := st.surface.map fun s => { s with vsync := enabled } }

/-- Embeds `GraphicsEngine::set_triple_buffering` (lines 450-454). -/
def GraphicsEngine.set_triple_buffering (st : EngineState) (enabled : Bool) : EngineState :=
  { st with surface := st.surface.map fun s => { s with triple_buffering := enabled } }

/-- Embeds `GraphicsEngine::set_texture_sampler_type` (lines 456-462): update
the sampler inside the global context when an engine context exists. -/
def GraphicsEngine.set_texture_sampler_type (st : EngineState)
    (texture_sampler_type : TextureSamplerType) : EngineState :=
  { st with
    engine_context := st.engine_context.map fun c =>
      { c with global_context := c.global_context.update_texture_sampler texture_sampler_type } }

/-- Embeds `GraphicsEngine::set_shadow_detail` (lines 464-470): update the
shadow-size textures inside the global context when an engine context
exists. -/
def GraphicsEngine.set_shadow_detail (st : EngineState)
    (shadow_detail : ShadowDetail) : EngineState :=
  { st with
    engine_context := st.engine_context.map fun c =>
      { c with global_context := c.global_context.update_shadow_size_textures shadow_detail } }

/-- Embeds `GraphicsEngine::on_suspended` (lines 419-424): drop the surface on
Android. -/
def GraphicsEngine.on_suspended (st : EngineState) (android : Bool) : EngineState :=
  if android then { st with surface := none } else st

/-- Embeds `GraphicsEngine::on_resize` (lines 426-430). -/
def GraphicsEngine.on_resize (st : EngineState) (width height : Nat) : EngineState :=
  { st with surface := st.surface.map fun s => s.update_window_size width height }

/-! ## `on_resume` -/

/-- Observable resource events of `on_resume`: surface creation, the
`self.engine_context = None` teardown, and the engine-context build. -/
inductive ResumeEvent
  | createSurface (format : TextureFormat)
  | destroyEngineContext
  | createEngineContext (format : TextureFormat)
deriving DecidableEq

/-- Embeds `GraphicsEngine::on_resume` (lines 139-417).  `negotiated_format` is
the format `Surface::new` negotiates with the adapter (an environment
input); `window_width`/`window_height` are the window's inner size,
clamped below by 1 as in the source. -/
def GraphicsEngine.on_resume (st : EngineState) (negotiated_format : TextureFormat)
    (window_width window_height : Nat) (triple_buffering vsync : Bool)
    (limit_framerate : LimitFramerate) (shadow_detail : ShadowDetail)
    (texture_sampler_type : TextureSamplerType) : EngineState × List ResumeEvent :=
  let st := GraphicsEngine.set_limit_framerate st limit_framerate
  match st.surface with
  | some _ => (st, [])
  | none =>
    let width := max window_width 1
    let height := max window_height 1
    let surface := Surface.new negotiated_format width height triple_buffering vsync
    let surface_texture_format := surface.format
    if st.previous_surface_texture_format = some surface_texture_format then
      ({ st with surface := some surface }, [ResumeEvent.createSurface surface_texture_format])
    else
      let context : EngineContext :=
        { generation := st.next_generation
          global_context := GlobalContext.new surface_texture_format width height
            shadow_detail texture_sampler_type
          pass_contexts_id := st.next_generation
          drawers_id := st.next_generation }
      ({ st with
          previous_surface_texture_format := some surface_texture_format
          engine_context := some context
          next_generation := st.next_generation + 1
          surface := some surface },
        [ResumeEvent.createSurface surface_texture_format, ResumeEvent.destroyEngineContext,
          ResumeEvent.createEngineContext surface_texture_format])

/-! ## `wait_for_next_frame` -/

/-- Observable events of `wait_for_next_frame`, in recording order. -/
inductive WaitEvent
  | reconfigureSurface
  | updateScreenSizeTextures (width height : Nat)
  | pacingWait
  | beginFrameStage
  | acquire
deriving DecidableEq

/-- Embeds `GraphicsEngine::wait_for_next_frame` (lines 484-508): opportunistic
surface reconfigure (plus screen-size texture update when a context
exists), optional pacing wait, begin the CPU timing stage, then acquire —
panicking (`none`) when no surface is set. -/
def GraphicsEngine.wait_for_next_frame (st : EngineState) :
    Option (EngineState × List WaitEvent × SurfaceTexture) :=
  let step :=
    match st.surface with
    | some s =>
      if s.valid then (st, ([] : List WaitEvent))
      else
        let s := s.reconfigure
        match st.engine_context with
        | some context =>
          let context :=
            { context with
              global_context := context.global_context.update_screen_size_textures
                s.width s.height }
          ({ st with surface := some s, engine_context := some context },
            [WaitEvent.reconfigureSurface, WaitEvent.updateScreenSizeTextures s.width s.height])
        | none => ({ st with surface := some s }, [WaitEvent.reconfigureSurface])
    | none => (st, [])
  let st := step.1
  let pacing := if st.limit_framerate then [WaitEvent.pacingWait] else []
  match st.surface with
  | none => none
  | some s =>
    some (st, step.2 ++ pacing ++ [WaitEvent.beginFrameStage, WaitEvent.acquire],
      { format := s.format, width := s.width, height := s.height })

/-! ## `render_next_frame` -/

/-- Observable events of one `render_next_frame` call, in source order.
The submission carries the seven command buffers in the order they are
handed to `Queue::submit`. -/
inductive FrameEvent
  | recallStagingBelt
  | prepareStage
  | uploadStage
  | recordPasses
  | finishStagingBelt
  | queuePickerRead
  | devicePollWait
  | submit (buffers : List CommandBuffer)
  | present
  | endFrameStage
deriving DecidableEq

/-- Embeds `GraphicsEngine::render_next_frame` (lines 510-548): assert the
point-light bound, reclaim the staging belt, prepare/upload, record the
six pass buffers, finish the belt, queue the picker read, poll-and-wait,
submit all seven buffers, present, end the timing stage.  `none` models
the `assert!` abort (bound exceeded) and the `unwrap` panic when no
engine context exists.

The tuple returned by `draw_frame` (picker first, interface second,
lines 904-911) is destructured POSITIONALLY into the names
`(interface_command_buffer, picker_command_buffer, …)` (lines 521-528),
exactly as in the source: the variable named `interface_command_buffer`
therefore holds the picker pass's buffer and vice versa, and
`wait_and_submit_frame` (lines 550-575) submits them in that swapped
order. -/
def GraphicsEngine.render_next_frame (debug : Bool) (st : EngineState)
    (instruction : RenderInstruction) : Option (EngineState × List FrameEvent) :=
  if instruction.point_light_shadow_caster.length ≤ NUMBER_OF_POINT_LIGHTS_WITH_SHADOWS then
    match st.engine_context with
    | none => none
    | some context =>
      let prepare_command_buffer := CommandBuffer.prepareBuffer
      let (interface_command_buffer, picker_command_buffer, directional_shadow_command_buffer,
        point_shadow_command_buffer, geometry_command_buffer, screen_command_buffer) :=
        draw_frame debug context.global_context.screen_width
          context.global_context.screen_height instruction
      some (st,
        [FrameEvent.recallStagingBelt, FrameEvent.prepareStage, FrameEvent.uploadStage,
          FrameEvent.recordPasses, FrameEvent.finishStagingBelt,
          FrameEvent.queuePickerRead, FrameEvent.devicePollWait,
          FrameEvent.submit [prepare_command_buffer, interface_command_buffer,
            picker_command_buffer, directional_shadow_command_buffer,
            point_shadow_command_buffer, geometry_command_buffer, screen_command_buffer],
          FrameEvent.present, FrameEvent.endFrameStage])
  else none

/-! ## Predicate helpers and test fixtures -/

/-- Whether a screen command is the point-light contribution. -/
def ScreenCmd.isPointLight : ScreenCmd → Bool
  | ScreenCmd.pointLight => true
  | _ => false

/-- Whether a screen command is the ambient-light contribution. -/
def ScreenCmd.isAmbientLight : ScreenCmd → Bool
  | ScreenCmd.ambientLight => true
  | _ => false

/-- Whether a screen command is the directional-light contribution. -/
def ScreenCmd.isDirectionalLight : ScreenCmd → Bool
  | ScreenCmd.directionalLight => true
  | _ => false

/-- Replace the `show_ambient_light` render-settings flag. -/
def setShowAmbientLight (instruction : RenderInstruction) (b : Bool) : RenderInstruction :=
  { instruction with render_settings := { instruction.render_settings with show_ambient_light := b } }

/-- Replace the `show_directional_light` render-settings flag. -/
def setShowDirectionalLight (instruction : RenderInstruction) (b : Bool) : RenderInstruction :=
  { instruction with
    render_settings := { instruction.render_settings with show_directional_light := b } }

/-- Whether a frame event is a queue submission. -/
def FrameEvent.isSubmit : FrameEvent → Bool
  | FrameEvent.submit _ => true
  | _ => false

/-- A concrete instruction used by the witness theorems (two point-light
shadow casters, all payloads distinct tokens). -/
def testInstruction : RenderInstruction :=
  { point_light_shadow_caster := [7, 8]
    clear_interface := true
    show_interface := true
    picker_position_left := 5
    picker_position_top := 9
    entities := [1]
    interface := [2]
    directional_model_batches := [3]
    directional_shadow_models := [4]
    directional_shadow_entities := [5]
    point_shadow_models := [6]
    point_shadow_entities := [7]
    model_batches := [8]
    models := [9]
    indicator := some 10
    map_water_vertex_buffer := some 11
    map_picker_tile_vertex_buffer := 12
    effects := [13]
    bottom_layer_rectangles := [14]
    middle_layer_rectangles := [15]
    top_layer_rectangles := [16]
    render_settings :=
      { show_ambient_light := true, show_directional_light := true, show_point_lights := true,
        show_wireframe := false } }

/-- The witness instruction with more shadow casters than the fixed
maximum allows. -/
def oversizedInstruction : RenderInstruction :=
  { testInstruction with
    point_light_shadow_caster := List.range (NUMBER_OF_POINT_LIGHTS_WITH_SHADOWS + 1) }

/-- A concrete engine context for witness theorems. -/
def testContext : EngineContext :=
  { generation := 0
    global_context := GlobalContext.new { code := 1 } 800 600 { level := 2 } TextureSamplerType.linear
    pass_contexts_id := 0
    drawers_id := 0 }

/-- A concrete post-resume engine state (valid surface, engine context
present) for witness theorems. -/
def testState : EngineState :=
  { staging_belt := 0
    surface := some (Surface.new { code := 1 } 800 600 true true)
    limit_framerate := true
    monitor_frequency := 144
    previous_surface_texture_format := some { code := 1 }
    engine_context := some testContext
    next_generation := 1 }

/-- The state `testState` with an invalidated surface (as after a resize). -/
def invalidSurfaceState : EngineState :=
  { testState with surface := some { Surface.new { code := 1 } 800 600 true true with valid := false } }

/-- The first `on_resume` call of the C3 scenario, from the freshly
initialized engine, negotiating format `f`. -/
def resumeOnce (f : TextureFormat) (w h : Nat) (tb vs : Bool) (lf : LimitFramerate)
    (sd : ShadowDetail) (ts : TextureSamplerType) : EngineState × List ResumeEvent :=
  GraphicsEngine.on_resume GraphicsEngine.initialize f w h tb vs lf sd ts

/-- The second `on_resume` call of the C3 scenario: after suspending on a
platform that drops the surface, resume again negotiating the same
format `f` (a second negotiation only happens when the surface was
dropped; when it survives, `on_resume` does not touch the context at
all, see C10). -/
def resumeAgain (f : TextureFormat) (w h : Nat) (tb vs : Bool) (lf : LimitFramerate)
    (sd : ShadowDetail) (ts : TextureSamplerType) (w2 h2 : Nat) (tb2 vs2 : Bool)
    (lf2 : LimitFramerate) (sd2 : ShadowDetail) (ts2 : TextureSamplerType) :
    EngineState × List ResumeEvent :=
  GraphicsEngine.on_resume
    (GraphicsEngine.on_suspended (resumeOnce f w h tb vs lf sd ts).1 true)
    f w2 h2 tb2 vs2 lf2 sd2 ts2

/-! ## Helper lemmas -/

theorem set_limit_framerate_surface (st : EngineState) (l : LimitFramerate) :
    (GraphicsEngine.set_limit_framerate st l).surface = st.surface := by
  cases l <;> rfl

theorem set_limit_framerate_engine_context (st : EngineState) (l : LimitFramerate) :
    (GraphicsEngine.set_limit_framerate st l).engine_context = st.engine_context := by
  cases l <;> rfl

theorem set_limit_framerate_previous_format (st : EngineState) (l : LimitFramerate) :
    (GraphicsEngine.set_limit_framerate st l).previous_surface_texture_format
      = st.previous_surface_texture_format := by
  cases l <;> rfl

theorem set_limit_framerate_next_generation (st : EngineState) (l : LimitFramerate) :
    (GraphicsEngine.set_limit_framerate st l).next_generation = st.next_generation := by
  cases l <;> rfl

theorem set_limit_framerate_staging_belt (st : EngineState) (l : LimitFramerate) :
    (GraphicsEngine.set_limit_framerate st l).staging_belt = st.staging_belt := by
  cases l <;> rfl

theorem on_resume_with_surface (st : EngineState) (s : Surface) (hs : st.surface = some s)
    (f : TextureFormat) (w h : Nat) (tb vs : Bool) (lf : LimitFramerate) (sd : ShadowDetail)
    (ts : TextureSamplerType) :
    GraphicsEngine.on_resume st f w h tb vs lf sd ts
      = (GraphicsEngine.set_limit_framerate st lf, []) := by
  simp only [GraphicsEngine.on_resume, set_limit_framerate_surface, hs]

theorem on_resume_same_format (st : EngineState) (hs : st.surface = none) (f : TextureFormat)
    (hp : st.previous_surface_texture_format = some f) (w h : Nat) (tb vs : Bool)
    (lf : LimitFramerate) (sd : ShadowDetail) (ts : TextureSamplerType) :
    GraphicsEngine.on_resume st f w h tb vs lf sd ts
      = ({ GraphicsEngine.set_limit_framerate st lf with
            surface := some (Surface.new f (max w 1) (max h 1) tb vs) },
          [ResumeEvent.createSurface f]) := by
  simp only [GraphicsEngine.on_resume, set_limit_framerate_surface, hs,
    set_limit_framerate_previous_format, hp, Surface.new, if_pos]

theorem on_resume_new_format (st : EngineState) (hs : st.surface = none) (f : TextureFormat)
    (hp : st.previous_surface_texture_format ≠ some f) (w h : Nat) (tb vs : Bool)
    (lf : LimitFramerate) (sd : ShadowDetail) (ts : TextureSamplerType) :
    GraphicsEngine.on_resume st f w h tb vs lf sd ts
      = ({ GraphicsEngine.set_limit_framerate st lf with
            previous_surface_texture_format := some f
            engine_context := some
              { generation := st.next_generation
                global_context := GlobalContext.new f (max w 1) (max h 1) sd ts
                pass_contexts_id := st.next_generation
                drawers_id := st.next_generation }
            next_generation := st.next_generation + 1
            surface := some (Surface.new f (max w 1) (max h 1) tb vs) },
          [ResumeEvent.createSurface f, ResumeEvent.destroyEngineContext,
            ResumeEvent.createEngineContext f]) := by
  simp only [GraphicsEngine.on_resume, set_limit_framerate_surface, hs,
    set_limit_framerate_previous_format, set_limit_framerate_next_generation, Surface.new,
    if_neg hp]

/-! ## Claims -/

/-- Claim C1: for every `RenderInstruction` whose
`point_light_shadow_caster` list is longer than
`NUMBER_OF_POINT_LIGHTS_WITH_SHADOWS`, `render_next_frame` aborts with an
assertion failure before any GPU work is recorded — modelled by the
function returning `none` with no frame events (no staging-belt recall,
no prepare/upload, no recording or submission). -/
theorem render_next_frame_aborts_when_caster_bound_exceeded (debug : Bool) (st : EngineState)
    (instruction : RenderInstruction)
    (h : NUMBER_OF_POINT_LIGHTS_WITH_SHADOWS < instruction.point_light_shadow_caster.length) :
    GraphicsEngine.render_next_frame debug st instruction = none := by
  unfold GraphicsEngine.render_next_frame
  rw [if_neg (by omega)]

/-- Witness for C1 at a concrete oversized instruction. -/
theorem render_next_frame_aborts_witness :
    NUMBER_OF_POINT_LIGHTS_WITH_SHADOWS < oversizedInstruction.point_light_shadow_caster.length
      ∧ GraphicsEngine.render_next_frame true testState oversizedInstruction = none :=
  ⟨by decide,
    render_next_frame_aborts_when_caster_bound_exceeded true testState oversizedInstruction
      (by decide)⟩

/-- Claim C4: in every frame's screen pass the three rectangle layers are
drawn in the order Bottom, Middle, Top, with the full-screen UI overlay
between Middle and Top exactly when `show_interface` is set, regardless
of the instruction's rectangle-list contents (and in both builds). -/
theorem screen_pass_rectangle_layer_order (debug : Bool) (instruction : RenderInstruction) :
    (screenPassDraws debug instruction).filter ScreenCmd.isLayerOrOverlay =
      [ScreenCmd.rectangles Layer.bottom instruction.bottom_layer_rectangles,
        ScreenCmd.rectangles Layer.middle instruction.middle_layer_rectangles]
        ++ (if instruction.show_interface then [ScreenCmd.overlay] else [])
        ++ [ScreenCmd.rectangles Layer.top instruction.top_layer_rectangles] := by
  obtain ⟨_, _, show_if, _, _, _, _, _, _, _, _, _, _, _, _, _, _, _, _, _, _, a, d, p, _⟩ :=
    instruction
  cases debug <;> cases a <;> cases d <;> cases p <;> cases show_if <;>
    simp [screenPassDraws, ScreenCmd.isLayerOrOverlay]

/-- Claim C5: in the debug build, turning off a render-settings lighting
flag (point, ambient or directional) omits exactly that lighting
contribution from the screen pass and nothing else, while the water-light
contribution is drawn in every frame unconditionally. -/
theorem screen_pass_lighting_flag_gating (instruction : RenderInstruction) :
    (screenPassDraws true (setShowPointLights instruction false)
        = (screenPassDraws true (setShowPointLights instruction true)).filter
            fun c => !c.isPointLight)
      ∧ ScreenCmd.pointLight ∈ screenPassDraws true (setShowPointLights instruction true)
      ∧ ScreenCmd.pointLight ∉ screenPassDraws true (setShowPointLights instruction false)
      ∧ (screenPassDraws true (setShowAmbientLight instruction false)
          = (screenPassDraws true (setShowAmbientLight instruction true)).filter
              fun c => !c.isAmbientLight)
      ∧ (screenPassDraws true (setShowDirectionalLight instruction false)
          = (screenPassDraws true (setShowDirectionalLight instruction true)).filter
              fun c => !c.isDirectionalLight)
      ∧ ∀ debug : Bool, ScreenCmd.waterLight ∈ screenPassDraws debug instruction := by
  obtain ⟨_, _, show_if, _, _, _, _, _, _, _, _, _, _, _, _, _, _, _, _, _, _, a, d, p, _⟩ :=
    instruction
  refine ⟨?_, ?_, ?_, ?_, ?_, ?_⟩
  · cases a <;> cases d <;> cases show_if <;>
      simp [screenPassDraws, setShowPointLights, ScreenCmd.isPointLight]
  · cases a <;> cases d <;> cases show_if <;> simp [screenPassDraws, setShowPointLights]
  · cases a <;> cases d <;> cases show_if <;> simp [screenPassDraws, setShowPointLights]
  · cases d <;> cases p <;> cases show_if <;>
      simp [screenPassDraws, setShowAmbientLight, ScreenCmd.isAmbientLight]
  · cases a <;> cases p <;> cases show_if <;>
      simp [screenPassDraws, setShowDirectionalLight, ScreenCmd.isDirectionalLight]
  · intro debug
    cases debug <;> cases a <;> cases d <;> cases p <;> cases show_if <;>
      simp [screenPassDraws]

/-- Witness for C5 at a concrete instruction. -/
theorem screen_pass_lighting_flag_gating_witness :
    (screenPassDraws true (setShowPointLights testInstruction false)
        = (screenPassDraws true (setShowPointLights testInstruction true)).filter
            fun c => !c.isPointLight)
      ∧ ScreenCmd.pointLight ∈ screenPassDraws true (setShowPointLights testInstruction true)
      ∧ ScreenCmd.pointLight ∉ screenPassDraws true (setShowPointLights testInstruction false)
      ∧ (screenPassDraws true (setShowAmbientLight testInstruction false)
          = (screenPassDraws true (setShowAmbientLight testInstruction true)).filter
              fun c => !c.isAmbientLight)
      ∧ (screenPassDraws true (setShowDirectionalLight testInstruction false)
          = (screenPassDraws true (setShowDirectionalLight testInstruction true)).filter
              fun c => !c.isDirectionalLight)
      ∧ ∀ debug : Bool, ScreenCmd.waterLight ∈ screenPassDraws debug testInstruction :=
  screen_pass_lighting_flag_gating testInstruction

/-- Claim C10: for every call to `on_resume` while a surface already
exists, the only state change is applying the framerate-limit argument
via `set_limit_framerate`: the surface, engine context, previous surface
format and staging belt are unchanged, no resource events occur, and the
negotiated format, window size, triple-buffering, vsync, shadow-detail
and texture-sampler arguments have no effect on the result. -/
theorem on_resume_with_surface_only_sets_framerate_limit (st : EngineState) (s : Surface)
    (hs : st.surface = some s) (f : TextureFormat) (w h : Nat) (tb vs : Bool)
    (lf : LimitFramerate) (sd : ShadowDetail) (ts : TextureSamplerType) :
    GraphicsEngine.on_resume st f w h tb vs lf sd ts
        = (GraphicsEngine.set_limit_framerate st lf, [])
      ∧ (GraphicsEngine.on_resume st f w h tb vs lf sd ts).1.surface = st.surface
      ∧ (GraphicsEngine.on_resume st f w h tb vs lf sd ts).1.engine_context = st.engine_context
      ∧ (GraphicsEngine.on_resume st f w h tb vs lf sd ts).1.previous_surface_texture_format
          = st.previous_surface_texture_format
      ∧ (GraphicsEngine.on_resume st f w h tb vs lf sd ts).1.staging_belt = st.staging_belt
      ∧ (GraphicsEngine.on_resume st f w h tb vs lf sd ts).1.next_generation
          = st.next_generation
      ∧ ∀ (f2 : TextureFormat) (w2 h2 : Nat) (tb2 vs2 : Bool) (sd2 : ShadowDetail)
          (ts2 : TextureSamplerType),
          GraphicsEngine.on_resume st f2 w2 h2 tb2 vs2 lf sd2 ts2
            = GraphicsEngine.on_resume st f w h tb vs lf sd ts := by
  have key := on_resume_with_surface st s hs f w h tb vs lf sd ts
  refine ⟨key, ?_, ?_, ?_, ?_, ?_, ?_⟩
  · rw [key]; exact set_limit_framerate_surface st lf
  · rw [key]; exact set_limit_framerate_engine_context st lf
  · rw [key]; exact set_limit_framerate_previous_format st lf
  · rw [key]; exact set_limit_framerate_staging_belt st lf
  · rw [key]; exact set_limit_framerate_next_generation st lf
  · intro f2 w2 h2 tb2 vs2 sd2 ts2
    rw [key, on_resume_with_surface st s hs f2 w2 h2 tb2 vs2 lf sd2 ts2]

/-- Witness for C10 at a concrete state with a live surface. -/
theorem on_resume_with_surface_only_sets_framerate_limit_witness :
    GraphicsEngine.on_resume testState { code := 2 } 1024 768 false false
        (LimitFramerate.limit 60) { level := 1 } TextureSamplerType.nearest
        = (GraphicsEngine.set_limit_framerate testState (LimitFramerate.limit 60), [])
      ∧ (GraphicsEngine.on_resume testState { code := 2 } 1024 768 false false
          (LimitFramerate.limit 60) { level := 1 } TextureSamplerType.nearest).1.surface
          = testState.surface
      ∧ (GraphicsEngine.on_resume testState { code := 2 } 1024 768 false false
          (LimitFramerate.limit 60) { level := 1 } TextureSamplerType.nearest).1.engine_context
          = testState.engine_context
      ∧ (GraphicsEngine.on_resume testState { code := 2 } 1024 768 false false
          (LimitFramerate.limit 60) { level := 1 }
          TextureSamplerType.nearest).1.previous_surface_texture_format
          = testState.previous_surface_texture_format
      ∧ (GraphicsEngine.on_resume testState { code := 2 } 1024 768 false false
          (LimitFramerate.limit 60) { level := 1 } TextureSamplerType.nearest).1.staging_belt
          = testState.staging_belt
      ∧ (GraphicsEngine.on_resume testState { code := 2 } 1024 768 false false
          (LimitFramerate.limit 60) { level := 1 } TextureSamplerType.nearest).1.next_generation
          = testState.next_generation
      ∧ ∀ (f2 : TextureFormat) (w2 h2 : Nat) (tb2 vs2 : Bool) (sd2 : ShadowDetail)
          (ts2 : TextureSamplerType),
          GraphicsEngine.on_resume testState f2 w2 h2 tb2 vs2 (LimitFramerate.limit 60) sd2 ts2
            = GraphicsEngine.on_resume testState { code := 2 } 1024 768 false false
                (LimitFramerate.limit 60) { level := 1 } TextureSamplerType.nearest :=
  on_resume_with_surface_only_sets_framerate_limit testState
    (Surface.new { code := 1 } 800 600 true true) rfl { code := 2 } 1024 768 false false
    (LimitFramerate.limit 60) { level := 1 } TextureSamplerType.nearest

/-- Claim C3: from a fresh engine, a first `on_resume` negotiating format
`f` builds the engine context; after an Android-style suspend (which
drops the surface but keeps the context), a second `on_resume`
negotiating the same format `f` performs no teardown and no rebuild and
leaves the identical engine context in place.  In general, a context
build happens on a surface-creating resume exactly when the negotiated
format differs from the previously-built format (including the first
build, where no previous format exists). -/
theorem on_resume_rebuilds_only_on_format_change (f : TextureFormat) (w h w2 h2 : Nat)
    (tb vs tb2 vs2 : Bool) (lf lf2 : LimitFramerate) (sd sd2 : ShadowDetail)
    (ts ts2 : TextureSamplerType) :
    (ResumeEvent.createEngineContext f ∈ (resumeOnce f w h tb vs lf sd ts).2)
      ∧ (∀ e ∈ (resumeAgain f w h tb vs lf sd ts w2 h2 tb2 vs2 lf2 sd2 ts2).2,
          e ≠ ResumeEvent.destroyEngineContext ∧ ∀ g, e ≠ ResumeEvent.createEngineContext g)
      ∧ (resumeAgain f w h tb vs lf sd ts w2 h2 tb2 vs2 lf2 sd2 ts2).1.engine_context
          = (resumeOnce f w h tb vs lf sd ts).1.engine_context
      ∧ ∀ (st : EngineState) (f2 : TextureFormat) (w3 h3 : Nat) (tb3 vs3 : Bool)
          (lf3 : LimitFramerate) (sd3 : ShadowDetail) (ts3 : TextureSamplerType),
          st.surface = none →
          ((∃ g, ResumeEvent.createEngineContext g
              ∈ (GraphicsEngine.on_resume st f2 w3 h3 tb3 vs3 lf3 sd3 ts3).2)
            ↔ st.previous_surface_texture_format ≠ some f2) := by
  refine ⟨?_, ?_, ?_, ?_⟩
  · cases lf <;>
      simp [resumeOnce, GraphicsEngine.on_resume, GraphicsEngine.initialize,
        GraphicsEngine.set_limit_framerate, Surface.new]
  · cases lf <;> cases lf2 <;>
      simp [resumeAgain, resumeOnce, GraphicsEngine.on_resume, GraphicsEngine.initialize,
        GraphicsEngine.on_suspended, GraphicsEngine.set_limit_framerate, Surface.new]
  · cases lf <;> cases lf2 <;>
      simp [resumeAgain, resumeOnce, GraphicsEngine.on_resume, GraphicsEngine.initialize,
        GraphicsEngine.on_suspended, GraphicsEngine.set_limit_framerate, Surface.new]
  · intro st f2 w3 h3 tb3 vs3 lf3 sd3 ts3 hsn
    by_cases hp : st.previous_surface_texture_format = some f2
    · rw [on_resume_same_format st hsn f2 hp w3 h3 tb3 vs3 lf3 sd3 ts3]
      simp [hp]
    · rw [on_resume_new_format st hsn f2 hp w3 h3 tb3 vs3 lf3 sd3 ts3]
      simp [hp]

/-- Witness for C3 at concrete formats and arguments. -/
theorem on_resume_rebuilds_only_on_format_change_witness :
    (ResumeEvent.createEngineContext { code := 1 }
        ∈ (resumeOnce { code := 1 } 800 600 true true LimitFramerate.unlimited { level := 2 }
            TextureSamplerType.linear).2)
      ∧ (∀ e ∈ (resumeAgain { code := 1 } 800 600 true true LimitFramerate.unlimited
            { level := 2 } TextureSamplerType.linear 1024 768 false false
            (LimitFramerate.limit 144) { level := 3 } TextureSamplerType.nearest).2,
          e ≠ ResumeEvent.destroyEngineContext ∧ ∀ g, e ≠ ResumeEvent.createEngineContext g)
      ∧ (resumeAgain { code := 1 } 800 600 true true LimitFramerate.unlimited { level := 2 }
            TextureSamplerType.linear 1024 768 false false (LimitFramerate.limit 144)
            { level := 3 } TextureSamplerType.nearest).1.engine_context
          = (resumeOnce { code := 1 } 800 600 true true LimitFramerate.unlimited { level := 2 }
              TextureSamplerType.linear).1.engine_context
      ∧ ∀ (st : EngineState) (f2 : TextureFormat) (w3 h3 : Nat) (tb3 vs3 : Bool)
          (lf3 : LimitFramerate) (sd3 : ShadowDetail) (ts3 : TextureSamplerType),
          st.surface = none →
          ((∃ g, ResumeEvent.createEngineContext g
              ∈ (GraphicsEngine.on_resume st f2 w3 h3 tb3 vs3 lf3 sd3 ts3).2)
            ↔ st.previous_surface_texture_format ≠ some f2) :=
  on_resume_rebuilds_only_on_format_change { code := 1 } 800 600 1024 768 true true false false
    LimitFramerate.unlimited (LimitFramerate.limit 144) { level := 2 } { level := 3 }
    TextureSamplerType.linear TextureSamplerType.nearest

/-- Claim C2 (code bug): for every instruction within the point-light
bound (and a built engine context), `render_next_frame` completes and
ends with exactly one submission of exactly seven command buffers, with
the blocking device poll-and-wait immediately before it — but the
buffers are submitted in the order prepare, PICKER, INTERFACE,
directional-shadow, point-shadow, geometry, screen, not the claimed
prepare, interface, picker, …: `draw_frame` returns the picker buffer
first and the interface buffer second (lines 904-911) while
`render_next_frame` destructures that tuple positionally as
`(interface_command_buffer, picker_command_buffer, …)` (lines 521-528),
so the submission at lines 566-574 receives the two buffers swapped
relative to its parameter names.  The final disequality states that the
submitted list is never the claimed one. -/
theorem render_next_frame_submits_picker_before_interface (debug : Bool) (st : EngineState)
    (instruction : RenderInstruction) (context : EngineContext)
    (hc : st.engine_context = some context)
    (h : instruction.point_light_shadow_caster.length ≤ NUMBER_OF_POINT_LIGHTS_WITH_SHADOWS) :
    ∃ st' pre post submitted,
      GraphicsEngine.render_next_frame debug st instruction
          = some (st', pre ++ [FrameEvent.devicePollWait, FrameEvent.submit submitted] ++ post)
        ∧ (pre ++ [FrameEvent.devicePollWait, FrameEvent.submit submitted] ++ post).filter
            FrameEvent.isSubmit = [FrameEvent.submit submitted]
        ∧ submitted
            = [CommandBuffer.prepareBuffer,
                CommandBuffer.pickerBuffer (pickerPassCommands debug
                  context.global_context.screen_width context.global_context.screen_height
                  instruction),
                CommandBuffer.interfaceBuffer instruction.clear_interface
                  [InterfaceCmd.drawRectangles instruction.interface],
                CommandBuffer.directionalShadowBuffer
                  [DirectionalShadowCmd.models instruction.directional_model_batches
                      instruction.directional_shadow_models false,
                    DirectionalShadowCmd.indicator instruction.indicator,
                    DirectionalShadowCmd.entities instruction.directional_shadow_entities],
                CommandBuffer.pointShadowBuffer (pointShadowSubPasses instruction),
                CommandBuffer.geometryBuffer
                  ([GeometryCmd.models instruction.model_batches instruction.models
                      (debug && instruction.render_settings.show_wireframe),
                    GeometryCmd.indicator instruction.indicator,
                    GeometryCmd.entities instruction.entities]
                    ++ (match instruction.map_water_vertex_buffer with
                        | some vertex_buffer => [GeometryCmd.water vertex_buffer]
                        | none => [])),
                CommandBuffer.screenBuffer (screenPassDraws debug instruction)]
        ∧ submitted.length = 7
        ∧ submitted
            ≠ [CommandBuffer.prepareBuffer,
                CommandBuffer.interfaceBuffer instruction.clear_interface
                  [InterfaceCmd.drawRectangles instruction.interface],
                CommandBuffer.pickerBuffer (pickerPassCommands debug
                  context.global_context.screen_width context.global_context.screen_height
                  instruction),
                CommandBuffer.directionalShadowBuffer
                  [DirectionalShadowCmd.models instruction.directional_model_batches
                      instruction.directional_shadow_models false,
                    DirectionalShadowCmd.indicator instruction.indicator,
                    DirectionalShadowCmd.entities instruction.directional_shadow_entities],
                CommandBuffer.pointShadowBuffer (pointShadowSubPasses instruction),
                CommandBuffer.geometryBuffer
                  ([GeometryCmd.models instruction.model_batches instruction.models
                      (debug && instruction.render_settings.show_wireframe),
                    GeometryCmd.indicator instruction.indicator,
                    GeometryCmd.entities instruction.entities]
                    ++ (match instruction.map_water_vertex_buffer with
                        | some vertex_buffer => [GeometryCmd.water vertex_buffer]
                        | none => [])),
                CommandBuffer.screenBuffer (screenPassDraws debug instruction)] := by
  refine ⟨st,
    [FrameEvent.recallStagingBelt, FrameEvent.prepareStage, FrameEvent.uploadStage,
      FrameEvent.recordPasses, FrameEvent.finishStagingBelt, FrameEvent.queuePickerRead],
    [FrameEvent.present, FrameEvent.endFrameStage], _, ?_, ?_, rfl, rfl, ?_⟩
  · unfold GraphicsEngine.render_next_frame
    rw [if_pos h, hc]
    rfl
  · simp [FrameEvent.isSubmit]
  · simp

/-- Witness for C2 at a concrete state and instruction. -/
theorem render_next_frame_submits_witness :
    ∃ st' pre post submitted,
      GraphicsEngine.render_next_frame true testState testInstruction
          = some (st', pre ++ [FrameEvent.devicePollWait, FrameEvent.submit submitted] ++ post)
        ∧ (pre ++ [FrameEvent.devicePollWait, FrameEvent.submit submitted] ++ post).filter
            FrameEvent.isSubmit = [FrameEvent.submit submitted]
        ∧ submitted
            = [CommandBuffer.prepareBuffer,
                CommandBuffer.pickerBuffer (pickerPassCommands true
                  testContext.global_context.screen_width
                  testContext.global_context.screen_height testInstruction),
                CommandBuffer.interfaceBuffer testInstruction.clear_interface
                  [InterfaceCmd.drawRectangles testInstruction.interface],
                CommandBuffer.directionalShadowBuffer
                  [DirectionalShadowCmd.models testInstruction.directional_model_batches
                      testInstruction.directional_shadow_models false,
                    DirectionalShadowCmd.indicator testInstruction.indicator,
                    DirectionalShadowCmd.entities testInstruction.directional_shadow_entities],
                CommandBuffer.pointShadowBuffer (pointShadowSubPasses testInstruction),
                CommandBuffer.geometryBuffer
                  ([GeometryCmd.models testInstruction.model_batches testInstruction.models
                      (true && testInstruction.render_settings.show_wireframe),
                    GeometryCmd.indicator testInstruction.indicator,
                    GeometryCmd.entities testInstruction.entities]
                    ++ (match testInstruction.map_water_vertex_buffer with
                        | some vertex_buffer => [GeometryCmd.water vertex_buffer]
                        | none => [])),
                CommandBuffer.screenBuffer (screenPassDraws true testInstruction)]
        ∧ submitted.length = 7
        ∧ submitted
            ≠ [CommandBuffer.prepareBuffer,
                CommandBuffer.interfaceBuffer testInstruction.clear_interface
                  [InterfaceCmd.drawRectangles testInstruction.interface],
                CommandBuffer.pickerBuffer (pickerPassCommands true
                  testContext.global_context.screen_width
                  testContext.global_context.screen_height testInstruction),
                CommandBuffer.directionalShadowBuffer
                  [DirectionalShadowCmd.models testInstruction.directional_model_batches
                      testInstruction.directional_shadow_models false,
                    DirectionalShadowCmd.indicator testInstruction.indicator,
                    DirectionalShadowCmd.entities testInstruction.directional_shadow_entities],
                CommandBuffer.pointShadowBuffer (pointShadowSubPasses testInstruction),
                CommandBuffer.geometryBuffer
                  ([GeometryCmd.models testInstruction.model_batches testInstruction.models
                      (true && testInstruction.render_settings.show_wireframe),
                    GeometryCmd.indicator testInstruction.indicator,
                    GeometryCmd.entities testInstruction.entities]
                    ++ (match testInstruction.map_water_vertex_buffer with
                        | some vertex_buffer => [GeometryCmd.water vertex_buffer]
                        | none => [])),
                CommandBuffer.screenBuffer (screenPassDraws true testInstruction)] :=
  render_next_frame_submits_picker_before_interface true testState testInstruction testContext
    rfl (by decide)

/-- Claim C6: the picker pass records, immediately after its draw calls,
a texture-to-buffer copy of exactly one texel (extent 1x1x1) whose
origin is the requested cursor position clamped component-wise to the
valid texture extent. -/
theorem picker_pass_single_texel_copy (debug : Bool) (texW texH : Nat)
    (instruction : RenderInstruction) (_hw : 1 ≤ texW) (_hh : 1 ≤ texH) :
    ∃ draws,
      pickerPassCommands debug texW texH instruction
          = draws ++ [PickerCmd.copyTextureToBuffer
              (min (texW - 1) instruction.picker_position_left)
              (min (texH - 1) instruction.picker_position_top) 0 1 1 1]
        ∧ draws.all PickerCmd.isDraw = true
        ∧ min (texW - 1) instruction.picker_position_left ≤ texW - 1
        ∧ min (texH - 1) instruction.picker_position_top ≤ texH - 1
        ∧ (instruction.picker_position_left ≤ texW - 1 →
            min (texW - 1) instruction.picker_position_left
              = instruction.picker_position_left)
        ∧ (instruction.picker_position_top ≤ texH - 1 →
            min (texH - 1) instruction.picker_position_top
              = instruction.picker_position_top) := by
  refine ⟨[PickerCmd.drawTiles instruction.map_picker_tile_vertex_buffer,
    PickerCmd.drawEntities instruction.entities]
    ++ (if debug then [PickerCmd.drawMarkers] else []), ?_, ?_, Nat.min_le_left _ _,
    Nat.min_le_left _ _, fun hp => Nat.min_eq_right hp, fun hp => Nat.min_eq_right hp⟩
  · cases debug <;> rfl
  · cases debug <;> rfl

/-- Witness for C6 at a concrete texture extent and instruction. -/
theorem picker_pass_single_texel_copy_witness :
    ∃ draws,
      pickerPassCommands true 800 600 testInstruction
          = draws ++ [PickerCmd.copyTextureToBuffer
              (min (800 - 1) testInstruction.picker_position_left)
              (min (600 - 1) testInstruction.picker_position_top) 0 1 1 1]
        ∧ draws.all PickerCmd.isDraw = true
        ∧ min (800 - 1) testInstruction.picker_position_left ≤ 800 - 1
        ∧ min (600 - 1) testInstruction.picker_position_top ≤ 600 - 1
        ∧ (testInstruction.picker_position_left ≤ 800 - 1 →
            min (800 - 1) testInstruction.picker_position_left
              = testInstruction.picker_position_left)
        ∧ (testInstruction.picker_position_top ≤ 600 - 1 →
            min (600 - 1) testInstruction.picker_position_top
              = testInstruction.picker_position_top) :=
  picker_pass_single_texel_copy true 800 600 testInstruction (by decide) (by decide)

theorem range_flatMap_range_six {α : Type} (f : Nat → Nat → α) (n : Nat) :
    ((List.range n).flatMap fun i => (List.range 6).map fun j => f i j)
      = (List.range (6 * n)).map fun k => f (k / 6) (k % 6) := by
  induction n with
  | zero => rfl
  | succ n ih =>
    rw [List.range_succ, List.flatMap_append, ih, Nat.mul_succ, List.range_add]
    simp only [List.flatMap_cons, List.flatMap_nil, List.append_nil, List.map_append,
      List.map_map]
    congr 1
    apply List.map_congr_left
    intro j hj
    have hj6 : j < 6 := List.mem_range.mp hj
    have hdiv : (6 * n + j) / 6 = n := by omega
    have hmod : (6 * n + j) % 6 = j := by omega
    simp [Function.comp, hdiv, hmod]

/-- Claim C7: for every instruction with `N` point-light shadow casters
(`N` at most the fixed maximum), the point-shadow recording opens exactly
`6 * N` sub-passes — casters in the outer loop, the six cube faces in
the inner loop, so sub-pass `k` targets caster `k / 6` and face `k % 6`
— and each sub-pass draws models, entities and the indicator. -/
theorem point_shadow_pass_subpass_structure (instruction : RenderInstruction)
    (_h : instruction.point_light_shadow_caster.length
      ≤ NUMBER_OF_POINT_LIGHTS_WITH_SHADOWS) :
    (pointShadowSubPasses instruction).length
        = 6 * instruction.point_light_shadow_caster.length
      ∧ pointShadowSubPasses instruction
          = (List.range (6 * instruction.point_light_shadow_caster.length)).map fun k =>
              { shadow_caster_index := k / 6, face_index := k % 6,
                draws := [PointShadowDraw.models instruction.point_shadow_models,
                  PointShadowDraw.entities instruction.point_shadow_entities,
                  PointShadowDraw.indicator instruction.indicator] } := by
  have key := range_flatMap_range_six
    (fun ci fi => (⟨ci, fi,
      [PointShadowDraw.models instruction.point_shadow_models,
        PointShadowDraw.entities instruction.point_shadow_entities,
        PointShadowDraw.indicator instruction.indicator]⟩ : PointShadowSubPass))
    instruction.point_light_shadow_caster.length
  refine ⟨?_, key⟩
  rw [show pointShadowSubPasses instruction = _ from key]
  simp

/-- Witness for C7 at a concrete instruction with two casters. -/
theorem point_shadow_pass_subpass_structure_witness :
    (pointShadowSubPasses testInstruction).length
        = 6 * testInstruction.point_light_shadow_caster.length
      ∧ pointShadowSubPasses testInstruction
          = (List.range (6 * testInstruction.point_light_shadow_caster.length)).map fun k =>
              { shadow_caster_index := k / 6, face_index := k % 6,
                draws := [PointShadowDraw.models testInstruction.point_shadow_models,
                  PointShadowDraw.entities testInstruction.point_shadow_entities,
                  PointShadowDraw.indicator testInstruction.indicator] } :=
  point_shadow_pass_subpass_structure testInstruction (by decide)

/-- Claim C8: `wait_for_next_frame` panics (returns `none`) exactly when
no surface is configured — no recoverable error is ever returned — and
when a surface exists but is invalid (with an engine context built), it
reconfigures the surface and updates the screen-size-dependent textures
before acquiring, performs the pacing wait only if a framerate limit is
set, begins the CPU timing stage, and returns the acquired target. -/
theorem wait_for_next_frame_behaviour (st : EngineState) :
    (GraphicsEngine.wait_for_next_frame st = none ↔ st.surface = none)
      ∧ (∀ s context, st.surface = some s → s.valid = false →
          st.engine_context = some context →
          (GraphicsEngine.wait_for_next_frame st).map Prod.snd
            = some ([WaitEvent.reconfigureSurface,
                  WaitEvent.updateScreenSizeTextures s.width s.height]
                  ++ (if st.limit_framerate then [WaitEvent.pacingWait] else [])
                  ++ [WaitEvent.beginFrameStage, WaitEvent.acquire],
                { format := s.format, width := s.width, height := s.height })) := by
  constructor
  · rcases hs : st.surface with _ | s
    · simp [GraphicsEngine.wait_for_next_frame, hs]
    · rcases hv : s.valid with _ | _
      · rcases hc : st.engine_context with _ | context <;>
          simp [GraphicsEngine.wait_for_next_frame, hs, hv, hc, Surface.reconfigure]
      · simp [GraphicsEngine.wait_for_next_frame, hs, hv]
  · intro s context hs hv hc
    simp [GraphicsEngine.wait_for_next_frame, hs, hv, hc, Surface.reconfigure,
      GlobalContext.update_screen_size_textures]

/-- Witness for C8 at a concrete state with an invalid surface. -/
theorem wait_for_next_frame_behaviour_witness :
    (GraphicsEngine.wait_for_next_frame invalidSurfaceState = none
        ↔ invalidSurfaceState.surface = none)
      ∧ (∀ s context, invalidSurfaceState.surface = some s → s.valid = false →
          invalidSurfaceState.engine_context = some context →
          (GraphicsEngine.wait_for_next_frame invalidSurfaceState).map Prod.snd
            = some ([WaitEvent.reconfigureSurface,
                  WaitEvent.updateScreenSizeTextures s.width s.height]
                  ++ (if invalidSurfaceState.limit_framerate then [WaitEvent.pacingWait]
                      else [])
                  ++ [WaitEvent.beginFrameStage, WaitEvent.acquire],
                { format := s.format, width := s.width, height := s.height })) :=
  wait_for_next_frame_behaviour invalidSurfaceState

/-- Claim C9: `set_shadow_detail` mutates only the shadow-size textures
inside the existing global context in place: the engine context is
neither destroyed nor recreated (generation, pass contexts and drawers
preserved), every other engine field is unchanged, and with no engine
context the call is a no-op. -/
theorem set_shadow_detail_in_place_update (st : EngineState) (sd : ShadowDetail) :
    ((GraphicsEngine.set_shadow_detail st sd).surface = st.surface
      ∧ (GraphicsEngine.set_shadow_detail st sd).staging_belt = st.staging_belt
      ∧ (GraphicsEngine.set_shadow_detail st sd).previous_surface_texture_format
          = st.previous_surface_texture_format
      ∧ (GraphicsEngine.set_shadow_detail st sd).limit_framerate = st.limit_framerate
      ∧ (GraphicsEngine.set_shadow_detail st sd).monitor_frequency = st.monitor_frequency
      ∧ (GraphicsEngine.set_shadow_detail st sd).next_generation = st.next_generation)
      ∧ (st.engine_context = none → GraphicsEngine.set_shadow_detail st sd = st)
      ∧ ∀ context, st.engine_context = some context →
          (GraphicsEngine.set_shadow_detail st sd).engine_context
            = some { context with
                global_context := { context.global_context with shadow_detail := sd } } := by
  refine ⟨⟨rfl, rfl, rfl, rfl, rfl, rfl⟩, ?_, ?_⟩
  · intro hc
    obtain ⟨belt, surf, lim, freq, prev, ctx, gen⟩ := st
    simp only at hc
    subst hc
    rfl
  · intro context hc
    simp [GraphicsEngine.set_shadow_detail, hc, GlobalContext.update_shadow_size_textures]

/-- Witness for C9 at a concrete state with an engine context. -/
theorem set_shadow_detail_in_place_update_witness :
    ((GraphicsEngine.set_shadow_detail testState { level := 9 }).surface = testState.surface
      ∧ (GraphicsEngine.set_shadow_detail testState { level := 9 }).staging_belt
          = testState.staging_belt
      ∧ (GraphicsEngine.set_shadow_detail testState
          { level := 9 }).previous_surface_texture_format
          = testState.previous_surface_texture_format
      ∧ (GraphicsEngine.set_shadow_detail testState { level := 9 }).limit_framerate
          = testState.limit_framerate
      ∧ (GraphicsEngine.set_shadow_detail testState { level := 9 }).monitor_frequency
          = testState.monitor_frequency
      ∧ (GraphicsEngine.set_shadow_detail testState { level := 9 }).next_generation
          = testState.next_generation)
      ∧ (testState.engine_context = none →
          GraphicsEngine.set_shadow_detail testState { level := 9 } = testState)
      ∧ ∀ context, testState.engine_context = some context →
          (GraphicsEngine.set_shadow_detail testState { level := 9 }).engine_context
            = some { context with
                global_context := { context.global_context with shadow_detail := { level := 9 } } } :=
  set_shadow_detail_in_place_update testState { level := 9 }

end Korangar
